import Mathlib

/-!
Verification of the Game of Life grid logic from `src/App.tsx`.

The grid is a list of rows, each row a list of booleans (`true` = alive).
The component's pure helpers (`createEmptyGrid`, `createRandomGrid`,
`isGridEmpty`, `countNeighbors`, the grid transformer inside
`nextGeneration`, `setCellAlive`) and the state transitions of the
`start` and `clear` handlers are translated below.  JavaScript array
indexing `grid[r][c]` (always used in bounds by the component) is
modelled by `getCell`, which defaults to `false` out of bounds; the
JavaScript `%` on a non-negative dividend agrees with `Int.emod`, which
`wrapIndex` uses.  `Math.random() < INITIAL_DENSITY` is modelled by an
oracle `rand : Nat → Nat → Bool` giving the outcome of the draw for each
cell, since each call is an independent sample that may come out either
way.
-/

/-- A Game of Life grid: rows of columns of booleans. -/
abbrev Grid := List (List Bool)

/-- Cell read `grid[r][c]`, `false` when out of bounds (the component only
reads in bounds). -/
def getCell (g : Grid) (r c : Nat) : Bool :=
  (g.getD r []).getD c false

/-- Translation of `createEmptyGrid(rows, cols)`: a `rows × cols` grid of
`false`. -/
def createEmptyGrid (rows cols : Nat) : Grid :=
  List.replicate rows (List.replicate cols false)

/-- Translation of `createRandomGrid(rows, cols)`: each cell is the outcome
of its own random draw, supplied by the oracle `rand`. -/
def createRandomGrid (rows cols : Nat) (rand : Nat → Nat → Bool) : Grid :=
  (List.range rows).map (fun i => (List.range cols).map (fun j => rand i j))

/-- Translation of `isGridEmpty(grid)`: every cell is `false`. -/
def isGridEmpty (g : Grid) : Bool :=
  g.all (fun row => row.all (fun cell => !cell))

/-- The index arithmetic `(x) % n` of `countNeighbors`, producing a `Nat`
index.  The dividends the component forms are non-negative, where the
JavaScript remainder agrees with `Int.emod`. -/
def wrapIndex (x : Int) (n : Nat) : Nat :=
  (x % (n : Int)).toNat

/-- The loop offsets `-1, 0, 1` of `countNeighbors`. -/
def deltas : List Int := [-1, 0, 1]

/-- Translation of `countNeighbors(grid, row, col)`: the two nested loops
over offsets `-1..1`, skipping `(0,0)`, reading the toroidally wrapped
cell `grid[(row+i+rows)%rows][(col+j+cols)%cols]` and counting the live
ones.  (`grid[0].length` is modelled by `(g.headD []).length`; the
component never calls this on an empty grid.) -/
def countNeighbors (g : Grid) (row col : Nat) : Nat :=
  let rows := g.length
  let cols := (g.headD []).length
  deltas.foldl (fun count i =>
    deltas.foldl (fun count j =>
      if i == 0 && j == 0 then count
      else
        let newRow := wrapIndex ((row : Int) + i + (rows : Int)) rows
        let newCol := wrapIndex ((col : Int) + j + (cols : Int)) cols
        if getCell g newRow newCol then count + 1 else count) count) 0

/-- Translation of the grid transformer inside `nextGeneration`: every cell
is recomputed from the *input* grid by Conway's B3/S23 rule. -/
def nextGeneration (g : Grid) : Grid :=
  g.mapIdx (fun i row =>
    row.mapIdx (fun j cell =>
      let neighbors := countNeighbors g i j
      if cell then neighbors == 2 || neighbors == 3
      else neighbors == 3))

/-- Translation of `setCellAlive(row, col)`: return the grid unchanged when
the cell is already alive, otherwise copy it with that one cell set to
`true`. -/
def setCellAlive (g : Grid) (row col : Nat) : Grid :=
  if getCell g row col then g
  else g.set row ((g.getD row []).set col true)

/-- Translation of the `start` handler acting on the grid and running flag:
seed randomly when the grid is entirely dead, then set `running` to
`true`. -/
def start (rows cols : Nat) (g : Grid) (rand : Nat → Nat → Bool) : Grid × Bool :=
  if isGridEmpty g then (createRandomGrid rows cols rand, true)
  else (g, true)

/-- Translation of the `clear` handler acting on the grid and running flag:
set `running` to `false` and replace the grid with an empty grid of the
current dimensions, whatever the prior state was. -/
def clear (rows cols : Nat) (_g : Grid) (_r : Bool) : Grid × Bool :=
  (createEmptyGrid rows cols, false)

/-- Rectangularity: every row of the grid has length `c`. -/
def Rectangular (g : Grid) (c : Nat) : Prop :=
  ∀ row ∈ g, row.length = c

/-- The 8 neighbor offsets named by the spec: `(-1,0,1)×(-1,0,1)` minus
`(0,0)`. -/
def neighborOffsets : List (Int × Int) :=
  [(-1, -1), (-1, 0), (-1, 1), (0, -1), (0, 1), (1, -1), (1, 0), (1, 1)]

/-- Modelled from the spec's words for comparison with `countNeighbors`:
the number of live cells among the 8 offset positions, each coordinate
wrapped via modulo arithmetic against the grid dimensions. -/
def neighborCountSpec (g : Grid) (row col : Nat) : Nat :=
  (neighborOffsets.filter (fun d =>
    getCell g ((((row : Int) + d.1) % (g.length : Int)).toNat)
      ((((col : Int) + d.2) % (((g.headD []).length : Nat) : Int)).toNat))).length

/-- The 3×3 block pattern: cells (0,0), (0,1), (1,0), (1,1) alive. -/
def blockGrid : Grid :=
  [[true, true, false], [true, true, false], [false, false, false]]

/-- The 3×3 all-dead grid with a single live cell at (0,0), used by the
spec's wraparound scenario. -/
def wrapDemoGrid : Grid :=
  [[true, false, false], [false, false, false], [false, false, false]]

/-- C9: on the 3×3 block pattern, `nextGeneration` returns a grid identical
to its input — the block is a still life under toroidal wraparound at this
size. -/
theorem block_is_still_life : nextGeneration blockGrid = blockGrid := by
  decide

/-- C10: on a 1×1 grid whose single cell is alive, the wrapping makes every
one of the 8 offsets land on the cell itself, so `countNeighbors` returns 8
and the lone live cell dies under `nextGeneration`. -/
theorem lone_cell_on_1x1 :
    countNeighbors [[true]] 0 0 = 8 ∧ nextGeneration [[true]] = [[false]] := by
  exact ⟨by decide, by decide⟩

/-- C7: painting is idempotent — `setCellAlive` on a cell that is already
alive returns the grid itself unchanged, so repeated painting of the same
already-alive cell never changes the grid. -/
theorem setCellAlive_idempotent (g : Grid) (row col : Nat)
    (h : getCell g row col = true) : setCellAlive g row col = g := by
  unfold setCellAlive
  rw [h]
  simp

/-- Witness for C7: the already-alive cell (0,1) of a concrete 2×2 grid. -/
theorem setCellAlive_idempotent_witness :
    getCell [[false, true], [false, false]] 0 1 = true ∧
      setCellAlive [[false, true], [false, false]] 0 1 =
        [[false, true], [false, false]] :=
  ⟨by decide, setCellAlive_idempotent [[false, true], [false, false]] 0 1 (by decide)⟩

/-- Reading a list with `getD` inside the bounds is `get`. -/
theorem getD_of_lt {α : Type} (l : List α) (i : Nat) (d : α) (h : i < l.length) :
    l.getD i d = l.get ⟨i, h⟩ := by
  rw [List.getD_eq_getElem?_getD, List.getElem?_eq_getElem h]
  rfl

/-- Reading one cell of a doubly-indexed `mapIdx` inside the bounds applies
the cell function to the original cell. -/
theorem getCell_mapIdx2 (g : Grid) (f : Nat → Nat → Bool → Bool) (i j : Nat)
    (h1 : i < g.length) (h2 : j < (g.getD i []).length) :
    getCell (g.mapIdx fun i row => row.mapIdx fun j cell => f i j cell) i j
      = f i j (getCell g i j) := by
  have hrow := getD_of_lt g i ([] : List Bool) h1
  have h2' : j < (g.get ⟨i, h1⟩).length := hrow ▸ h2
  have h1' : i < (g.mapIdx fun i row => row.mapIdx fun j cell => f i j cell).length := by
    rw [List.length_mapIdx]; exact h1
  unfold getCell
  rw [getD_of_lt _ i ([] : List Bool) h1', List.get_mapIdx g _ i h1 h1']
  have h2'' : j < ((g.get ⟨i, h1⟩).mapIdx fun j cell => f i j cell).length := by
    rw [List.length_mapIdx]; exact h2'
  rw [getD_of_lt _ j false h2'', List.get_mapIdx _ _ j h2' h2'', hrow,
    getD_of_lt _ j false h2']

/-- C1: a cell of `nextGeneration g` is alive iff it was alive in `g` with
toroidal neighbor count 2 or 3, or dead in `g` with neighbor count exactly
3; the decision reads only the prior grid `g`. -/
theorem conway_rule_cell (g : Grid) (i j : Nat)
    (h1 : i < g.length) (h2 : j < (g.getD i []).length) :
    getCell (nextGeneration g) i j = true ↔
      ((getCell g i j = true ∧
          (countNeighbors g i j = 2 ∨ countNeighbors g i j = 3)) ∨
        (getCell g i j = false ∧ countNeighbors g i j = 3)) := by
  have h := getCell_mapIdx2 g
    (fun i j cell =>
      if cell then countNeighbors g i j == 2 || countNeighbors g i j == 3
      else countNeighbors g i j == 3) i j h1 h2
  have hng : getCell (nextGeneration g) i j =
      getCell (g.mapIdx fun i row => row.mapIdx fun j cell =>
        (fun i j cell =>
          if cell then countNeighbors g i j == 2 || countNeighbors g i j == 3
          else countNeighbors g i j == 3) i j cell) i j := rfl
  rw [hng, h]
  cases hc : getCell g i j <;> simp [hc, Nat.beq_eq_true_eq]

/-- Witness for C1 at the 2×2 grid with three live cells, cell (0,0). -/
theorem conway_rule_cell_witness :
    0 < ([[true, true], [true, false]] : Grid).length ∧
    0 < (([[true, true], [true, false]] : Grid).getD 0 []).length ∧
    (getCell (nextGeneration [[true, true], [true, false]]) 0 0 = true ↔
      ((getCell ([[true, true], [true, false]] : Grid) 0 0 = true ∧
          (countNeighbors [[true, true], [true, false]] 0 0 = 2 ∨
            countNeighbors [[true, true], [true, false]] 0 0 = 3)) ∨
        (getCell ([[true, true], [true, false]] : Grid) 0 0 = false ∧
          countNeighbors [[true, true], [true, false]] 0 0 = 3))) :=
  ⟨by decide, by decide,
    conway_rule_cell [[true, true], [true, false]] 0 0 (by decide) (by decide)⟩

/-- C3: `nextGeneration` keeps the number of rows and keeps every row at
width `c` on a rectangular grid, and `setCellAlive` on an in-bounds cell
keeps the number of rows and the rectangular width as well. -/
theorem dims_preserved :
    (∀ g : Grid, (nextGeneration g).length = g.length) ∧
    (∀ (g : Grid) (c : Nat), Rectangular g c → Rectangular (nextGeneration g) c) ∧
    (∀ (g : Grid) (row col c : Nat), Rectangular g c → row < g.length → col < c →
      (setCellAlive g row col).length = g.length ∧
        Rectangular (setCellAlive g row col) c) := by
  refine ⟨?_, ?_, ?_⟩
  · intro g
    unfold nextGeneration
    exact List.length_mapIdx
  · intro g c hrect r hr
    unfold nextGeneration at hr
    rw [List.mapIdx_eq_ofFn, List.mem_ofFn] at hr
    obtain ⟨i, hi⟩ := hr
    have hmem : g.get i ∈ g := List.get_mem g i.1 i.2
    rw [← hi, List.length_mapIdx]
    exact hrect _ hmem
  · intro g row col c hrect hr hc
    unfold setCellAlive
    by_cases halive : getCell g row col = true
    · rw [if_pos halive]
      exact ⟨rfl, hrect⟩
    · rw [if_neg halive]
      refine ⟨List.length_set .., ?_⟩
      intro r hrmem
      rcases List.mem_or_eq_of_mem_set hrmem with h | h
      · exact hrect r h
      · subst h
        rw [List.length_set, getD_of_lt g row ([] : List Bool) hr]
        exact hrect _ (List.get_mem g row hr)

/-- Witness for C3 at a concrete rectangular 2×2 grid and cell (1,1). -/
theorem dims_preserved_witness :
    Rectangular ([[true, false], [false, false]] : Grid) 2 ∧
    (1 : Nat) < ([[true, false], [false, false]] : Grid).length ∧
    (1 : Nat) < 2 ∧
    Rectangular (nextGeneration [[true, false], [false, false]]) 2 ∧
    ((setCellAlive [[true, false], [false, false]] 1 1).length =
        ([[true, false], [false, false]] : Grid).length ∧
      Rectangular (setCellAlive [[true, false], [false, false]] 1 1) 2) :=
  ⟨by unfold Rectangular; decide, by decide, by decide,
    dims_preserved.2.1 [[true, false], [false, false]] 2
      (by unfold Rectangular; decide),
    dims_preserved.2.2 [[true, false], [false, false]] 1 1 2
      (by unfold Rectangular; decide) (by decide) (by decide)⟩

/-- C4: a grid with zero rows or zero columns passes through
`nextGeneration` unchanged, and for positive dimensions every wrapped index
the code computes lands strictly inside the dimension, so no out-of-bounds
access can occur. -/
theorem total_on_degenerate_and_in_bounds :
    (∀ rows : Nat, nextGeneration (createEmptyGrid rows 0) = createEmptyGrid rows 0) ∧
    (∀ cols : Nat, nextGeneration (createEmptyGrid 0 cols) = createEmptyGrid 0 cols) ∧
    (∀ (x : Int) (n : Nat), 1 ≤ n → wrapIndex x n < n) := by
  refine ⟨?_, ?_, ?_⟩
  · intro rows
    unfold nextGeneration createEmptyGrid
    rw [List.mapIdx_eq_ofFn]
    simp [List.getElem_replicate]
  · intro cols
    unfold nextGeneration createEmptyGrid
    simp
  · intro x n hn
    unfold wrapIndex
    have hpos : (0 : Int) < (n : Int) := by exact_mod_cast hn
    have hlt := Int.emod_lt_of_pos x hpos
    have hnn := Int.emod_nonneg x hpos.ne'
    omega

/-- Witness for C4's bounds conjunct at `x = -1`, `n = 3`. -/
theorem total_on_degenerate_and_in_bounds_witness :
    (1 : Nat) ≤ 3 ∧ wrapIndex (-1) 3 < 3 :=
  ⟨by decide, total_on_degenerate_and_in_bounds.2.2 (-1) 3 (by decide)⟩

/-- C8: painting cell (row, col) makes that cell alive, leaves every other
cell exactly as it was, and in particular never kills a live cell. -/
theorem setCellAlive_frame (g : Grid) (row col : Nat)
    (hr : row < g.length) (hc : col < (g.getD row []).length) :
    getCell (setCellAlive g row col) row col = true ∧
    (∀ i j : Nat, ¬(i = row ∧ j = col) →
      getCell (setCellAlive g row col) i j = getCell g i j) ∧
    (∀ i j : Nat, getCell g i j = true →
      getCell (setCellAlive g row col) i j = true) := by
  by_cases halive : getCell g row col = true
  · have hid : setCellAlive g row col = g := by
      unfold setCellAlive
      rw [halive]
      simp
    rw [hid]
    exact ⟨halive, fun i j _ => rfl, fun i j h => h⟩
  · have hset : setCellAlive g row col = g.set row ((g.getD row []).set col true) := by
      unfold setCellAlive
      rw [if_neg halive]
    have key : ∀ i j : Nat, getCell (setCellAlive g row col) i j
        = if i = row ∧ j = col then true else getCell g i j := by
      intro i j
      rw [hset]
      unfold getCell
      by_cases hi : i = row
      · subst hi
        have h1 : (g.set i ((g.getD i []).set col true)).getD i [] =
            (g.getD i []).set col true := by
          rw [List.getD_eq_getElem?_getD (g.set i ((g.getD i []).set col true)) i
            ([] : List Bool), List.getElem?_set_eq_of_lt _ hr, Option.getD_some]
        rw [h1]
        by_cases hj : j = col
        · subst hj
          have h2 : ((g.getD i []).set j true).getD j false = true := by
            rw [List.getD_eq_getElem?_getD ((g.getD i []).set j true) j false,
              List.getElem?_set_eq_of_lt _ hc, Option.getD_some]
          rw [h2, if_pos ⟨rfl, rfl⟩]
        · have h2 : ((g.getD i []).set col true).getD j false =
              (g.getD i []).getD j false := by
            rw [List.getD_eq_getElem?_getD ((g.getD i []).set col true) j false,
              List.getElem?_set_ne (Ne.symm hj),
              ← List.getD_eq_getElem?_getD]
          rw [h2, if_neg (fun h => hj h.2)]
      · have h1 : (g.set row ((g.getD row []).set col true)).getD i [] =
            g.getD i [] := by
          rw [List.getD_eq_getElem?_getD (g.set row ((g.getD row []).set col true)) i
            ([] : List Bool), List.getElem?_set_ne (Ne.symm hi),
            ← List.getD_eq_getElem?_getD]
        rw [h1, if_neg (fun h => hi h.1)]
    refine ⟨?_, ?_, ?_⟩
    · rw [key row col, if_pos ⟨rfl, rfl⟩]
    · intro i j hij
      rw [key i j, if_neg hij]
    · intro i j hlive
      by_cases hij : i = row ∧ j = col
      · rw [key i j, if_pos hij]
      · rw [key i j, if_neg hij]
        exact hlive

/-- Witness for C8 at a concrete 2×2 grid, painting cell (0,1). -/
theorem setCellAlive_frame_witness :
    0 < ([[false, false], [true, false]] : Grid).length ∧
    1 < (([[false, false], [true, false]] : Grid).getD 0 []).length ∧
    getCell (setCellAlive [[false, false], [true, false]] 0 1) 0 1 = true ∧
    getCell (setCellAlive [[false, false], [true, false]] 0 1) 1 0 =
      getCell ([[false, false], [true, false]] : Grid) 1 0 ∧
    getCell (setCellAlive [[false, false], [true, false]] 0 1) 1 0 = true :=
  ⟨by decide, by decide,
    (setCellAlive_frame [[false, false], [true, false]] 0 1 (by decide) (by decide)).1,
    (setCellAlive_frame [[false, false], [true, false]] 0 1 (by decide)
      (by decide)).2.1 1 0 (by decide),
    (setCellAlive_frame [[false, false], [true, false]] 0 1 (by decide)
      (by decide)).2.2 1 0 (by decide)⟩

/-- Adding the modulus before reducing does not change an integer modulo. -/
theorem emod_add_cancel (x : Int) (n : Nat) :
    (x + (n : Int)) % (n : Int) = x % (n : Int) := by
  have h : x + (n : Int) = x + (n : Int) * 1 := by ring
  rw [h, Int.add_mul_emod_self_left]

/-- Length of a filtered cons as an indicator plus the filtered tail. -/
theorem length_filter_cons {a : Int × Int} {l : List (Int × Int)}
    (p : Int × Int → Bool) :
    (List.filter p (a :: l)).length = (if p a then 1 else 0) + (List.filter p l).length := by
  by_cases h : p a
  · simp [List.filter_cons, h]
    omega
  · simp [List.filter_cons, h]

/-- A left fold whose step is translation-equivariant shifts with its
accumulator. -/
theorem foldl_shift (f : Nat → Int → Nat)
    (hf : ∀ (c : Nat) (a : Int), f c a = f 0 a + c) :
    ∀ (l : List Int) (n : Nat), l.foldl f n = l.foldl f 0 + n := by
  intro l
  induction l with
  | nil => intro n; simp
  | cons a l ih =>
    intro n
    simp only [List.foldl_cons]
    rw [ih (f n a), ih (f 0 a), hf n a]
    omega

/-- Evaluating a translation-equivariant left fold over the three loop
offsets. -/
theorem foldl_deltas_flatten (f : Nat → Int → Nat)
    (hf : ∀ (c : Nat) (a : Int), f c a = f 0 a + c) :
    deltas.foldl f 0 = f 0 1 + (f 0 0 + f 0 (-1)) := by
  simp only [deltas, List.foldl_cons, List.foldl_nil]
  rw [hf (f 0 (-1)) 0, hf (f 0 0 + f 0 (-1)) 1]

/-- The nested counting loops of `countNeighbors` compute exactly the
spec-side offset count `neighborCountSpec`. -/
theorem countNeighbors_eq_spec (g : Grid) (row col : Nat) :
    countNeighbors g row col = neighborCountSpec g row col := by
  have hinner_hf : ∀ (i : Int) (c : Nat) (a : Int),
      (if i == 0 && a == 0 then c
        else if getCell g (wrapIndex ((row : Int) + i + (g.length : Int)) g.length)
            (wrapIndex ((col : Int) + a + ((g.headD []).length : Int)) (g.headD []).length)
          then c + 1 else c)
        = (if i == 0 && a == 0 then 0
            else if getCell g (wrapIndex ((row : Int) + i + (g.length : Int)) g.length)
                (wrapIndex ((col : Int) + a + ((g.headD []).length : Int)) (g.headD []).length)
              then 0 + 1 else 0) + c := by
    intro i c a
    split_ifs <;> omega
  have houter_hf : ∀ (c : Nat) (i : Int),
      List.foldl (fun count j =>
        if i == 0 && j == 0 then count
        else if getCell g (wrapIndex ((row : Int) + i + (g.length : Int)) g.length)
            (wrapIndex ((col : Int) + j + ((g.headD []).length : Int)) (g.headD []).length)
          then count + 1 else count) c deltas
      = List.foldl (fun count j =>
        if i == 0 && j == 0 then count
        else if getCell g (wrapIndex ((row : Int) + i + (g.length : Int)) g.length)
            (wrapIndex ((col : Int) + j + ((g.headD []).length : Int)) (g.headD []).length)
          then count + 1 else count) 0 deltas + c := by
    intro c i
    exact foldl_shift _ (hinner_hf i) deltas c
  have hmain : countNeighbors g row col =
      List.foldl (fun count (i : Int) =>
        List.foldl (fun count j =>
          if i == 0 && j == 0 then count
          else if getCell g (wrapIndex ((row : Int) + i + (g.length : Int)) g.length)
              (wrapIndex ((col : Int) + j + ((g.headD []).length : Int)) (g.headD []).length)
            then count + 1 else count) count deltas) 0 deltas := rfl
  rw [hmain]
  rw [foldl_deltas_flatten _ (fun c i => houter_hf c i)]
  rw [foldl_deltas_flatten (fun count j =>
      if (1 : Int) == 0 && j == 0 then count
      else if getCell g (wrapIndex ((row : Int) + 1 + (g.length : Int)) g.length)
          (wrapIndex ((col : Int) + j + ((g.headD []).length : Int)) (g.headD []).length)
        then count + 1 else count) (hinner_hf 1),
    foldl_deltas_flatten (fun count j =>
      if (0 : Int) == 0 && j == 0 then count
      else if getCell g (wrapIndex ((row : Int) + 0 + (g.length : Int)) g.length)
          (wrapIndex ((col : Int) + j + ((g.headD []).length : Int)) (g.headD []).length)
        then count + 1 else count) (hinner_hf 0),
    foldl_deltas_flatten (fun count j =>
      if (-1 : Int) == 0 && j == 0 then count
      else if getCell g (wrapIndex ((row : Int) + -1 + (g.length : Int)) g.length)
          (wrapIndex ((col : Int) + j + ((g.headD []).length : Int)) (g.headD []).length)
        then count + 1 else count) (hinner_hf (-1))]
  unfold neighborCountSpec wrapIndex
  simp only [neighborOffsets, length_filter_cons, List.filter_nil, List.length_nil,
    emod_add_cancel,
    show ((-1 : Int) == 0) = false from rfl,
    show ((1 : Int) == 0) = false from rfl,
    show ((0 : Int) == 0) = true from rfl,
    Bool.false_and, Bool.and_false, Bool.true_and, Bool.and_self,
    if_false, if_true, Bool.false_eq_true, ite_false, ite_true, Nat.zero_add]
  omega

/-- C2: on a rectangular grid with at least one row and one column and an
in-bounds position, `countNeighbors` returns exactly the number of live
cells among the 8 toroidally wrapped offset positions, and that count is
at most 8 (it is a `Nat`, hence at least 0); moreover on the 3×3 grid with
a single live cell at (0,0) the diagonally wrapped count at (2,2) is 1. -/
theorem countNeighbors_correct :
    (∀ (g : Grid) (row col : Nat),
      Rectangular g ((g.headD []).length) →
      1 ≤ g.length → 1 ≤ (g.headD []).length →
      row < g.length → col < (g.headD []).length →
      countNeighbors g row col = neighborCountSpec g row col ∧
        countNeighbors g row col ≤ 8) ∧
    countNeighbors wrapDemoGrid 2 2 = 1 := by
  constructor
  · intro g row col _ _ _ _ _
    refine ⟨countNeighbors_eq_spec g row col, ?_⟩
    rw [countNeighbors_eq_spec g row col]
    unfold neighborCountSpec
    exact le_trans (List.length_filter_le _ neighborOffsets) (by rfl)
  · decide

/-- Witness for C2 at a concrete rectangular 2×3 grid, position (1,2). -/
theorem countNeighbors_correct_witness :
    Rectangular [[true, false, true], [false, true, false]]
      (([[true, false, true], [false, true, false]] : Grid).headD []).length ∧
    1 ≤ ([[true, false, true], [false, true, false]] : Grid).length ∧
    1 ≤ (([[true, false, true], [false, true, false]] : Grid).headD []).length ∧
    1 < ([[true, false, true], [false, true, false]] : Grid).length ∧
    2 < (([[true, false, true], [false, true, false]] : Grid).headD []).length ∧
    (countNeighbors [[true, false, true], [false, true, false]] 1 2 =
        neighborCountSpec [[true, false, true], [false, true, false]] 1 2 ∧
      countNeighbors [[true, false, true], [false, true, false]] 1 2 ≤ 8) :=
  ⟨by unfold Rectangular; decide, by decide, by decide, by decide, by decide,
    countNeighbors_correct.1 [[true, false, true], [false, true, false]] 1 2
      (by unfold Rectangular; decide) (by decide) (by decide) (by decide) (by decide)⟩

/-- Reading a replicated list with `getD` gives the element inside the
bounds and the default outside. -/
theorem getD_replicate {α : Type} (n k : Nat) (a d : α) :
    (List.replicate n a).getD k d = if k < n then a else d := by
  rw [List.getD_eq_getElem?_getD, List.getElem?_replicate]
  split_ifs <;> rfl

/-- C6: `clear` from any prior grid and running flag yields the running
flag `false` and an all-dead grid of the current `rows × cols`
dimensions. -/
theorem clear_resets (rows cols : Nat) (g : Grid) (r : Bool) :
    (clear rows cols g r).2 = false ∧
    (clear rows cols g r).1.length = rows ∧
    Rectangular (clear rows cols g r).1 cols ∧
    ∀ i j : Nat, getCell (clear rows cols g r).1 i j = false := by
  refine ⟨rfl, ?_, ?_, ?_⟩
  · unfold clear createEmptyGrid
    exact List.length_replicate rows _
  · intro row hmem
    unfold clear createEmptyGrid at hmem
    rw [List.eq_of_mem_replicate hmem]
    exact List.length_replicate cols false
  · intro i j
    unfold clear createEmptyGrid getCell
    rw [getD_replicate]
    split_ifs
    · rw [getD_replicate]
      split_ifs <;> rfl
    · rfl

/-- Witness for C6 at concrete dimensions 2×3, prior grid `[[true]]`,
prior running flag `true`. -/
theorem clear_resets_witness :
    (clear 2 3 [[true]] true).2 = false ∧
    (clear 2 3 [[true]] true).1.length = 2 ∧
    getCell (clear 2 3 [[true]] true).1 0 1 = false :=
  ⟨(clear_resets 2 3 [[true]] true).1, (clear_resets 2 3 [[true]] true).2.1,
    (clear_resets 2 3 [[true]] true).2.2.2 0 1⟩

/-- Counterexample to C5 as stated: every random draw may come out dead
(each cell's `Math.random() < 0.25` test fails with probability 0.75), and
then `start` on the all-dead 1×1 grid leaves the grid entirely dead even
though the auto-seed fired and `running` became true. -/
theorem start_nonempty_counterexample :
    isGridEmpty [[false]] = true ∧
    (start 1 1 [[false]] (fun _ _ => false)).2 = true ∧
    isGridEmpty (start 1 1 [[false]] (fun _ _ => false)).1 = true :=
  ⟨rfl, rfl, rfl⟩

/-- C5 amended: `start` on an entirely dead grid replaces it with the
randomly sampled grid of the current dimensions and sets `running` to
`true`, and the result is non-empty whenever at least one in-range random
draw came out alive; `start` on a non-empty grid keeps the grid unchanged
and sets `running` to `true`. -/
theorem start_spec (rows cols : Nat) (g : Grid) (rand : Nat → Nat → Bool) :
    (isGridEmpty g = true →
      start rows cols g rand = (createRandomGrid rows cols rand, true) ∧
      ((∃ i j, i < rows ∧ j < cols ∧ rand i j = true) →
        isGridEmpty (start rows cols g rand).1 = false)) ∧
    (isGridEmpty g = false → start rows cols g rand = (g, true)) := by
  constructor
  · intro hempty
    have hstart : start rows cols g rand = (createRandomGrid rows cols rand, true) := by
      unfold start
      rw [hempty]
      simp
    refine ⟨hstart, ?_⟩
    rintro ⟨i, j, hi, hj, hr⟩
    rw [hstart]
    have hne : ¬ isGridEmpty (createRandomGrid rows cols rand) = true := by
      unfold isGridEmpty
      rw [List.all_eq_true]
      intro hall
      have hrowmem : (List.range cols).map (fun j => rand i j) ∈
          createRandomGrid rows cols rand := by
        unfold createRandomGrid
        exact List.mem_map_of_mem _ (List.mem_range.mpr hi)
      have hrow := hall _ hrowmem
      rw [List.all_eq_true] at hrow
      have hcell := hrow _ (List.mem_map_of_mem _ (List.mem_range.mpr hj))
      rw [hr] at hcell
      simp at hcell
    exact Bool.eq_false_iff.mpr hne
  · intro hfull
    unfold start
    rw [hfull]
    simp

/-- Witness for C5's amended claim: 1×1 dimensions, all-dead prior grid,
the random draw alive at (0,0). -/
theorem start_spec_witness :
    isGridEmpty [[false]] = true ∧
    start 1 1 [[false]] (fun _ _ => true) =
      (createRandomGrid 1 1 (fun _ _ => true), true) ∧
    isGridEmpty (start 1 1 [[false]] (fun _ _ => true)).1 = false :=
  ⟨rfl, ((start_spec 1 1 [[false]] (fun _ _ => true)).1 rfl).1,
    ((start_spec 1 1 [[false]] (fun _ _ => true)).1 rfl).2
      ⟨0, 0, by decide, by decide, rfl⟩⟩
